import Mathlib

/-!
# Verification of the DHT22 bit-banged decoder (`src/sensors/dht22.go`)

Shallow embedding of the DHT22 sensor driver from the IoTGo repository.
Durations are modelled in nanoseconds (Go's `time.Duration` is an integer
count of nanoseconds), bytes as natural numbers below 256, and `float64`
values as rationals (`ℚ`).  The per-read environment (`ReadEnv`) carries
the success of the three GPIO configuration calls and the list of
transition durations the pin delivers before the 200 ms deadline fires:
the sampler consumes transitions from this list, and an exhausted list
means the deadline elapsed.
-/

set_option maxRecDepth 8192

deriving instance DecidableEq for Except

/-- The error values produced by `readDHT22` (`dht22.go`), one constructor
per `fmt.Errorf` site. -/
inductive DHTError where
  /-- "failed to set pin low" -/
  | setPinLowFailed : DHTError
  /-- "failed to set pin high" -/
  | setPinHighFailed : DHTError
  /-- "failed to set pin to input" -/
  | setPinInputFailed : DHTError
  /-- "timeout waiting for sensor response" -/
  | timeout : DHTError
  /-- "insufficient data: got %d transitions, need 83" -/
  | insufficientData (got : Nat) : DHTError
  /-- "checksum mismatch: expected %d, got %d" -/
  | checksumMismatch (expected got : Nat) : DHTError
deriving DecidableEq, Repr

/-- The `DHT22` struct (`dht22.go` lines 12–15): the pin name and the
line-controller handle (modelled as an opaque numeric id). -/
structure DHT22 where
  Pin : String
  gpioPin : Nat
deriving DecidableEq, Repr

/-- The `SensorData` struct (`sensors.go`): the fields map is modelled as
an association list, the timestamp as a natural number. -/
structure SensorData where
  SensorType : String
  Fields : List (String × ℚ)
  Timestamp : Nat
deriving DecidableEq, Repr

/-- Per-read environment: whether each of the three GPIO configuration
calls succeeds, the transition durations (ns) observed before the 200 ms
deadline, and the wall-clock timestamp used by `Read`. -/
structure ReadEnv where
  outLowOk : Bool
  outHighOk : Bool
  inOk : Bool
  transitions : List Nat
  timestamp : Nat

/-- The sampling loop of `readDHT22` (`dht22.go` lines 86–104): it
appends one duration per observed level change and jumps to `parseData`
as soon as 83 transitions have been captured; if the environment's
transition list is exhausted first, the 200 ms deadline fires and the
loop returns the timeout error (`none` here). -/
def sampleTransitions (acc : List Nat) (avail : List Nat) : Option (List Nat) :=
  match avail with
  | [] => none
  | d :: rest =>
    let acc' := acc ++ [d]
    if 83 ≤ acc'.length then some acc' else sampleTransitions acc' rest

/-- The bit-assembly loop of `readDHT22` (`dht22.go` lines 112–130):
`for i := 3; i < len(transitions) && bitIndex < 40; i += 2`, breaking
when `i+1 >= len(transitions)`; each step classifies `transitions[i+1]`
against the 50 µs (= 50000 ns) threshold and ORs the bit into
`data[bitIndex/8]` at offset `7 - bitIndex%8`.  The loop body runs at
most 40 times (`bitIndex < 40`), so running it with fuel 40 is exact. -/
def parseBits (ts : List Nat) : Nat → Nat → Nat → List Nat → List Nat
  | 0, _, _, data => data
  | fuel + 1, i, bitIndex, data =>
    if i < ts.length ∧ bitIndex < 40 then
      if ts.length ≤ i + 1 then data
      else
        let bit : Nat := if 50000 < ts.getD (i + 1) 0 then 1 else 0
        let byteIndex := bitIndex / 8
        let bitOffset := 7 - bitIndex % 8
        parseBits ts fuel (i + 2) (bitIndex + 1)
          (data.set byteIndex ((data.getD byteIndex 0) ||| (bit <<< bitOffset)))
    else data

/-- The full bit assembly of `readDHT22`: start from `data := make([]byte, 5)`
(all zero), skip the first 3 transitions, decode 40 bits. -/
def decodeFrame (ts : List Nat) : List Nat :=
  parseBits ts 40 3 0 [0, 0, 0, 0, 0]

/-- The checksum check and value extraction of `readDHT22`
(`dht22.go` lines 132–151).  `data[0]+data[1]+data[2]+data[3]` is byte
(mod-256) addition; on success the result pair is
(temperature, humidity), matching the Go return order. -/
def extract (data : List Nat) : Except DHTError (ℚ × ℚ) :=
  let checksum := (data.getD 0 0 + data.getD 1 0 + data.getD 2 0 + data.getD 3 0) % 256
  if checksum ≠ data.getD 4 0 then
    .error (.checksumMismatch (data.getD 4 0) checksum)
  else
    let humidityRaw := (data.getD 0 0) <<< 8 ||| data.getD 1 0
    let humidity : ℚ := (humidityRaw : ℚ) / 10
    let temperatureRaw := ((data.getD 2 0) &&& 0x7F) <<< 8 ||| data.getD 3 0
    let temperature : ℚ := (temperatureRaw : ℚ) / 10
    let temperature := if (data.getD 2 0) &&& 0x80 ≠ 0 then -temperature else temperature
    .ok (temperature, humidity)

/-- `(*DHT22).readDHT22` (`dht22.go` lines 60–152), threading the sensor
value through every return site: GPIO configuration, sampling under the
deadline, the (dead) `len(transitions) < 83` guard at `parseData`, bit
assembly, checksum and extraction. -/
def DHT22.readDHT22 (d : DHT22) (env : ReadEnv) :
    Except DHTError (ℚ × ℚ) × DHT22 :=
  if !env.outLowOk then (.error .setPinLowFailed, d)
  else if !env.outHighOk then (.error .setPinHighFailed, d)
  else if !env.inOk then (.error .setPinInputFailed, d)
  else
    match sampleTransitions [] env.transitions with
    | none => (.error .timeout, d)
    | some transitions =>
      if transitions.length < 83 then
        (.error (.insufficientData transitions.length), d)
      else
        match extract (decodeFrame transitions) with
        | .error e => (.error e, d)
        | .ok r => (.ok r, d)

/-- `(*DHT22).Read` (`dht22.go` lines 38–52): wraps `readDHT22`'s pair
into a `SensorData` with type tag "dht22" and the current timestamp. -/
def DHT22.Read (d : DHT22) (env : ReadEnv) :
    Except DHTError SensorData × DHT22 :=
  let r := d.readDHT22 env
  match r.1 with
  | .error e => (.error e, r.2)
  | .ok (temperature, humidity) =>
    (.ok { SensorType := "dht22"
           Fields := [("temperature", temperature), ("humidity", humidity)]
           Timestamp := env.timestamp },
     r.2)

/-- `(*DHT22).Close` (`dht22.go` lines 55–57): the body is empty
("No cleanup needed for periph.io"), so it returns no error and leaves
the receiver untouched. -/
def DHT22.Close (d : DHT22) : DHT22 := d

/-- A concrete sensor instance used in closed statements. -/
def sensor0 : DHT22 := { Pin := "GPIO4", gpioPin := 0 }

/-- The 5-byte frame for humidity 45.3 % and temperature 23.7 °C:
`humidity*10 = 453` big-endian in bytes 0–1, `temperature*10 = 237` in
bytes 2–3 (positive, so bit 15 clear), and the mod-256 checksum byte. -/
def c1frame : List Nat :=
  [453 / 256, 453 % 256, 237 / 256, 237 % 256,
   (453 / 256 + 453 % 256 + 237 / 256 + 237 % 256) % 256]

/-- The 8 bits of a byte, most significant first, as 0/1 values. -/
def bitsOfByte (b : Nat) : List Nat :=
  (List.range 8).map fun m => if b.testBit (7 - m) then 1 else 0

/-- One (low-pulse, high-pulse) transition pair encoding a bit:
a 27 µs high pulse for a 0-bit, a 70 µs high pulse for a 1-bit,
preceded by a 50 µs low pulse. -/
def encodePulse (bit : Nat) : List Nat :=
  [50000, if bit = 1 then 70000 else 27000]

/-- The 83-transition sequence for `c1frame`: 3 handshake transitions
followed by one (low, high) pulse pair per bit, 40 bits in order. -/
def c1trace : List Nat :=
  [80000, 80000, 80000] ++
    ((c1frame.map bitsOfByte).flatten.map encodePulse).flatten

/- ### Helper lemmas -/

theorem listGetD_set_self (l : List Nat) (i : Nat) (a d : Nat)
    (h : i < l.length) : (l.set i a).getD i d = a := by
  simp [List.getD_eq_getElem?_getD, List.getElem?_set_self h]

theorem listGetD_set_ne (l : List Nat) (i j : Nat) (a d : Nat)
    (h : i ≠ j) : (l.set i a).getD j d = l.getD j d := by
  simp [List.getD_eq_getElem?_getD, List.getElem?_set_ne h]

/-- `parseBits` never changes the length of the byte array. -/
theorem parseBits_length (ts : List Nat) :
    ∀ fuel i b data, (parseBits ts fuel i b data).length = data.length := by
  intro fuel
  induction fuel with
  | zero => intro i b data; rfl
  | succ fuel ih =>
    intro i b data
    rw [parseBits]
    split
    · split
      · rfl
      · rw [ih]; simp
    · rfl

/-- Bounded bit-level facts about ORing a single shifted bit into a byte
slot: the bit lands at position `7 - b % 8` of byte `b / 8` and nowhere
else. -/
theorem setBit_testBit (data : List Nat) (hdata : data.length = 5)
    (b k bit : Nat) (hb : b < 40) (hk : k < 40) (hbit : bit ≤ 1) :
    Nat.testBit
        ((data.set (b / 8)
            ((data.getD (b / 8) 0) ||| (bit <<< (7 - b % 8)))).getD (k / 8) 0)
        (7 - k % 8)
      = ((decide (k = b) && decide (bit = 1))
         || Nat.testBit (data.getD (k / 8) 0) (7 - k % 8)) := by
  by_cases hdiv : b / 8 = k / 8
  · rw [← hdiv, listGetD_set_self _ _ _ _ (by omega)]
    rw [Nat.testBit_lor, Nat.testBit_shiftLeft]
    by_cases hkb : k = b
    · subst hkb
      simp only [ge_iff_le, le_refl, decide_True, Bool.true_and, Nat.sub_self]
      interval_cases bit <;> simp [Bool.or_comm]
    · have hmod : k % 8 ≠ b % 8 := by omega
      by_cases hge : 7 - b % 8 ≤ 7 - k % 8
      · have hpos : 0 < 7 - k % 8 - (7 - b % 8) := by omega
        have hzero : Nat.testBit bit (7 - k % 8 - (7 - b % 8)) = false := by
          interval_cases bit
          · simp
          · rw [show (1 : ℕ) = 2 ^ 0 from rfl, Nat.testBit_two_pow]
            simp only [decide_eq_false_iff_not]
            omega
        simp [hge, hzero, hkb]
      · simp [show ¬ (7 - k % 8 ≥ 7 - b % 8) from hge, hkb]
  · rw [listGetD_set_ne _ _ _ _ _ hdiv]
    have hkb : k ≠ b := by omega
    simp [hkb]

/-- Loop invariant for the bit-assembly loop: starting at bit slot `b`
(with `i = 3 + 2*b` as in the Go loop) with fuel `40 - b`, bit `k` of
the final array is the threshold classification of transition `4 + 2*k`
when `b ≤ k`, and the starting array's bit otherwise. -/
theorem parseBits_testBit (ts : List Nat) (hts : 83 ≤ ts.length) :
    ∀ fuel b data, fuel + b = 40 → data.length = 5 →
      ∀ k, k < 40 →
        Nat.testBit ((parseBits ts fuel (3 + 2 * b) b data).getD (k / 8) 0)
            (7 - k % 8)
          = ((decide (b ≤ k) && decide (50000 < ts.getD (4 + 2 * k) 0))
             || Nat.testBit (data.getD (k / 8) 0) (7 - k % 8)) := by
  intro fuel
  induction fuel with
  | zero =>
    intro b data hb hdata k hk
    have hbk : ¬ b ≤ k := by omega
    simp [parseBits, hbk]
  | succ fuel ih =>
    intro b data hb hdata k hk
    have hcond : 3 + 2 * b < ts.length ∧ b < 40 := ⟨by omega, by omega⟩
    have hcond2 : ¬ ts.length ≤ 3 + 2 * b + 1 := by omega
    rw [parseBits, if_pos hcond, if_neg hcond2]
    have harg : 3 + 2 * b + 2 = 3 + 2 * (b + 1) := by ring
    have hidx : 3 + 2 * b + 1 = 4 + 2 * b := by ring
    rw [harg, hidx,
        ih (b + 1) _ (by omega) (by simp [hdata]) k hk,
        setBit_testBit _ hdata _ _ _ (by omega) hk
          (by split <;> simp)]
    by_cases hkb : k = b
    · subst hkb
      by_cases hd : 50000 < ts.getD (4 + 2 * k) 0 <;>
        simp [hd, show ¬ (k + 1 ≤ k) from by omega]
    · simp [hkb, show (b + 1 ≤ k) ↔ (b ≤ k ∧ ¬ k = b) from by omega,
            Bool.or_assoc]

/-- `[0,0,0,0,0].getD j 0 = 0` for every index. -/
theorem getD_zeros (j : Nat) :
    (([0, 0, 0, 0, 0] : List Nat)[j]?).getD 0 = 0 := by
  rcases j with _ | _ | _ | _ | _ | j <;> rfl

/-- Bit-level characterisation of `decodeFrame` on a sequence of at
least 83 transitions: bit `k` of the frame (byte `k / 8`, position
`7 - k % 8`) is 1 exactly when transition `4 + 2*k` exceeds 50 µs. -/
theorem decodeFrame_testBit (ts : List Nat) (hts : 83 ≤ ts.length)
    (k : Nat) (hk : k < 40) :
    Nat.testBit ((decodeFrame ts).getD (k / 8) 0) (7 - k % 8)
      = decide (50000 < ts.getD (4 + 2 * k) 0) := by
  have h := parseBits_testBit ts hts 40 0 [0, 0, 0, 0, 0] rfl rfl k hk
  simpa [decodeFrame, getD_zeros] using h

/-- On a matching checksum, `extract` returns the temperature/humidity
pair computed from the frame bytes. -/
theorem extract_ok_eq (b0 b1 b2 b3 b4 : Nat)
    (hsum : (b0 + b1 + b2 + b3) % 256 = b4) :
    extract [b0, b1, b2, b3, b4]
      = .ok (if b2 &&& 128 ≠ 0
               then -((((b2 &&& 127) <<< 8 ||| b3 : ℕ) : ℚ) / 10)
               else (((b2 &&& 127) <<< 8 ||| b3 : ℕ) : ℚ) / 10,
             ((b0 <<< 8 ||| b1 : ℕ) : ℚ) / 10) := by
  simp [extract, hsum]

/-- On a checksum mismatch, `extract` returns the mismatch error
carrying the frame's checksum byte and the computed sum. -/
theorem extract_err_eq (b0 b1 b2 b3 b4 : Nat)
    (hsum : (b0 + b1 + b2 + b3) % 256 ≠ b4) :
    extract [b0, b1, b2, b3, b4]
      = .error (.checksumMismatch b4 ((b0 + b1 + b2 + b3) % 256)) := by
  simp [extract, hsum]

/-- For a byte, masking with `0x80` is nonzero exactly when bit 7 is set. -/
theorem testBit7_and128 : ∀ b2 < 256, ((b2 &&& 128 ≠ 0) ↔ Nat.testBit b2 7) := by
  decide

/-- Adding `0x80` to a 7-bit value sets bit 7 and leaves the low 7 bits
(mask `0x7F`) unchanged. -/
theorem and128_facts : ∀ b2 < 128,
    (b2 &&& 128 = 0 ∧ (b2 + 128) &&& 128 = 128 ∧
     (b2 + 128) &&& 127 = b2 &&& 127) := by
  decide

/-- If fewer than 83 transitions remain available before the deadline,
the sampling loop ends in the timeout. -/
theorem sampleTransitions_none :
    ∀ avail acc : List Nat, acc.length + avail.length < 83 →
      sampleTransitions acc avail = none := by
  intro avail
  induction avail with
  | nil => intro acc _; rfl
  | cons d rest ih =>
    intro acc h
    rw [sampleTransitions]
    have hlt : ¬ 83 ≤ (acc ++ [d]).length := by simp at h ⊢; omega
    rw [if_neg hlt]
    exact ih _ (by simp at h ⊢; omega)

/-- `readDHT22` leaves the receiver untouched on every control path. -/
theorem readDHT22_snd (d : DHT22) (env : ReadEnv) :
    (d.readDHT22 env).2 = d := by
  unfold DHT22.readDHT22
  repeat' split
  all_goals rfl

/- ### Claim theorems -/

/-- C2 (threshold boundary): in the decoded frame of any transition
sequence of at least 83 transitions, data bit `k` is classified from its
high-pulse duration (transition `4 + 2*k`) alone: a duration strictly
greater than 50 µs (50000 ns) decodes as bit 1, and a duration of at
most 50 µs — including exactly 50 µs — decodes as bit 0. -/
theorem C2_threshold_boundary (ts : List Nat) (hts : 83 ≤ ts.length)
    (k : Nat) (hk : k < 40) :
    (50000 < ts.getD (4 + 2 * k) 0 →
      Nat.testBit ((decodeFrame ts).getD (k / 8) 0) (7 - k % 8) = true) ∧
    (ts.getD (4 + 2 * k) 0 ≤ 50000 →
      Nat.testBit ((decodeFrame ts).getD (k / 8) 0) (7 - k % 8) = false) := by
  rw [decodeFrame_testBit ts hts k hk]
  constructor
  · intro h; exact decide_eq_true h
  · intro h; exact decide_eq_false (by omega)

/-- C2 witness: in the round-trip trace, bit 0 (high pulse 27 µs at
transition index 4) decodes as 0, and bit 7 (high pulse 70 µs at
transition index 18) decodes as 1. -/
theorem C2_threshold_boundary_witness :
    83 ≤ c1trace.length ∧ c1trace.getD 4 0 ≤ 50000 ∧
    Nat.testBit ((decodeFrame c1trace).getD 0 0) 7 = false ∧
    50000 < c1trace.getD 18 0 ∧
    Nat.testBit ((decodeFrame c1trace).getD 0 0) 0 = true :=
  ⟨by decide, by decide,
   (C2_threshold_boundary c1trace (by decide) 0 (by decide)).2 (by decide),
   by decide,
   (C2_threshold_boundary c1trace (by decide) 7 (by decide)).1 (by decide)⟩

/-- C7 (bit assembly): for any transition sequence of at least 83
transitions, the decoded frame has exactly 5 bytes, and bit `k`
(`k < 40`) lands in byte `k / 8` at bit position `7 - k % 8`, taking its
value from the high pulse of the `k`-th (low, high) transition pair
after the 3 discarded handshake transitions, i.e. transition `4 + 2*k`. -/
theorem C7_bit_assembly (ts : List Nat) (hts : 83 ≤ ts.length) :
    (decodeFrame ts).length = 5 ∧
    ∀ k, k < 40 →
      Nat.testBit ((decodeFrame ts).getD (k / 8) 0) (7 - k % 8)
        = decide (50000 < ts.getD (4 + 2 * k) 0) := by
  constructor
  · rw [decodeFrame, parseBits_length]; rfl
  · intro k hk
    exact decodeFrame_testBit ts hts k hk

/-- C7 witness: on the round-trip trace the frame has 5 bytes and bit 39
(byte 4, position 0) is the classification of transition 82. -/
theorem C7_bit_assembly_witness :
    83 ≤ c1trace.length ∧ (decodeFrame c1trace).length = 5 ∧
    Nat.testBit ((decodeFrame c1trace).getD 4 0) 0
      = decide (50000 < c1trace.getD 82 0) :=
  ⟨by decide, (C7_bit_assembly c1trace (by decide)).1,
   (C7_bit_assembly c1trace (by decide)).2 39 (by decide)⟩

/-- C4 (checksum enforcement): extraction returns `ChecksumMismatch`
exactly when `frame[4]` differs from `(frame[0]+frame[1]+frame[2]+frame[3]) mod 256`,
and whenever a reading is returned the checksum holds; no values derived
from a frame failing the checksum are ever returned. -/
theorem C4_checksum_enforcement (b0 b1 b2 b3 b4 : Nat)
    (h0 : b0 < 256) (h1 : b1 < 256) (h2 : b2 < 256) (h3 : b3 < 256)
    (h4 : b4 < 256) :
    (extract [b0, b1, b2, b3, b4]
        = .error (.checksumMismatch b4 ((b0 + b1 + b2 + b3) % 256))
      ↔ (b0 + b1 + b2 + b3) % 256 ≠ b4) ∧
    (∀ r, extract [b0, b1, b2, b3, b4] = .ok r →
      (b0 + b1 + b2 + b3) % 256 = b4) := by
  by_cases hc : (b0 + b1 + b2 + b3) % 256 = b4
  · rw [extract_ok_eq _ _ _ _ _ hc]
    exact ⟨by simp [hc], fun r _ => hc⟩
  · rw [extract_err_eq _ _ _ _ _ hc]
    exact ⟨by simp [hc], fun r h => by simp at h⟩

/-- C4 witness: the frame `[1, 197, 128, 237, 179]` has sum
`563 mod 256 = 51 ≠ 179`, so extraction reports the mismatch. -/
theorem C4_checksum_enforcement_witness :
    extract [1, 197, 128, 237, 179]
      = .error (.checksumMismatch 179 ((1 + 197 + 128 + 237) % 256)) :=
  (C4_checksum_enforcement 1 197 128 237 179 (by decide) (by decide)
      (by decide) (by decide) (by decide)).1.mpr (by decide)

/-- C5 (extraction formulas): for every checksum-valid frame the
humidity is `((frame[0] << 8) | frame[1]) / 10`, the temperature is the
magnitude `(((frame[2] & 0x7F) << 8) | frame[3]) / 10` negated exactly
when bit 7 of `frame[2]` is set, and the humidity is non-negative. -/
theorem C5_extraction_formulas (b0 b1 b2 b3 b4 : Nat)
    (h0 : b0 < 256) (h1 : b1 < 256) (h2 : b2 < 256) (h3 : b3 < 256)
    (h4 : b4 < 256) (hsum : (b0 + b1 + b2 + b3) % 256 = b4) :
    extract [b0, b1, b2, b3, b4]
      = .ok (if Nat.testBit b2 7
               then -((((b2 &&& 127) <<< 8 ||| b3 : ℕ) : ℚ) / 10)
               else (((b2 &&& 127) <<< 8 ||| b3 : ℕ) : ℚ) / 10,
             ((b0 <<< 8 ||| b1 : ℕ) : ℚ) / 10) ∧
    0 ≤ ((b0 <<< 8 ||| b1 : ℕ) : ℚ) / 10 := by
  constructor
  · rw [extract_ok_eq _ _ _ _ _ hsum]
    have hbit := testBit7_and128 b2 h2
    by_cases ht : Nat.testBit b2 7
    · simp [ht, hbit.mpr ht]
    · have : ¬ (b2 &&& 128 ≠ 0) := fun h => ht (hbit.mp h)
      simp [ht, this]
  · positivity

/-- C5 witness: applied to the frame `[1, 197, 0, 237, 179]`. -/
theorem C5_extraction_formulas_witness :
    extract [1, 197, 0, 237, 179]
      = .ok (if Nat.testBit 0 7
               then -((((0 &&& 127) <<< 8 ||| 237 : ℕ) : ℚ) / 10)
               else (((0 &&& 127) <<< 8 ||| 237 : ℕ) : ℚ) / 10,
             ((1 <<< 8 ||| 197 : ℕ) : ℚ) / 10) ∧
    0 ≤ ((1 <<< 8 ||| 197 : ℕ) : ℚ) / 10 :=
  C5_extraction_formulas 1 197 0 237 179 (by decide) (by decide) (by decide)
    (by decide) (by decide) (by decide)

/-- C6 counterexample: flipping bit 7 of `frame[2]` while holding every
other byte — including the checksum byte `frame[4]` — constant changes
the mod-256 sum by 128, so the flipped frame always fails the checksum:
there is no pair of checksum-valid frames differing only in bit 7 of
`frame[2]`.  Concretely, `[1,197,0,237,179]` extracts successfully while
`[1,197,128,237,179]` is rejected with a checksum mismatch. -/
theorem C6_counterexample :
    extract [1, 197, 0, 237, 179] = .ok (237 / 10, 453 / 10) ∧
    extract [1, 197, 128, 237, 179]
      = .error (.checksumMismatch 179 51) := by
  constructor
  · rw [extract_ok_eq 1 197 0 237 179 (by decide)]
    norm_num [show ((0 &&& 127) <<< 8 ||| 237 : ℕ) = 237 from by decide,
              show (1 <<< 8 ||| 197 : ℕ) = 453 from by decide]
  · rw [extract_err_eq 1 197 128 237 179 (by decide)]

/-- C6 (amended; sign isolation): for every pair of checksum-valid
frames that agree on bytes 0, 1, 3 and on the low 7 bits of byte 2 but
differ in bit 7 of `frame[2]` (their checksum bytes then necessarily
differ), the extracted temperatures are negatives of each other and the
extracted humidities are equal — humidity is never sign-adjusted. -/
theorem C6_sign_isolation (b0 b1 b2 b3 b4 b4' : Nat)
    (h0 : b0 < 256) (h1 : b1 < 256) (h2 : b2 < 128) (h3 : b3 < 256)
    (hv : (b0 + b1 + b2 + b3) % 256 = b4)
    (hv' : (b0 + b1 + (b2 + 128) + b3) % 256 = b4') :
    ∃ t h : ℚ, extract [b0, b1, b2, b3, b4] = .ok (t, h) ∧
      extract [b0, b1, b2 + 128, b3, b4'] = .ok (-t, h) := by
  obtain ⟨ha, hb, hc⟩ := and128_facts b2 h2
  refine ⟨(((b2 &&& 127) <<< 8 ||| b3 : ℕ) : ℚ) / 10,
          ((b0 <<< 8 ||| b1 : ℕ) : ℚ) / 10, ?_, ?_⟩
  · rw [extract_ok_eq _ _ _ _ _ hv]
    simp [ha]
  · rw [extract_ok_eq _ _ _ _ _ hv']
    simp [hb, hc]

/-- C6 witness: the pair `[1,197,0,237,179]` / `[1,197,128,237,51]`. -/
theorem C6_sign_isolation_witness :
    ∃ t h : ℚ, extract [1, 197, 0, 237, 179] = .ok (t, h) ∧
      extract [1, 197, 0 + 128, 237, 51] = .ok (-t, h) :=
  C6_sign_isolation 1 197 0 237 179 51 (by decide) (by decide) (by decide)
    (by decide) (by decide) (by decide)

/-- C10 (no range validation beyond the checksum): the frame
`[0xFF, 0xFF, 0, 0, 0xFE]` satisfies the checksum invariant, extraction
succeeds on it, and the returned humidity `6553.5` exceeds `100`. -/
theorem C10_no_range_validation :
    (255 + 255 + 0 + 0) % 256 = 254 ∧
    ∃ t h : ℚ, extract [255, 255, 0, 0, 254] = .ok (t, h) ∧ 100 < h := by
  refine ⟨by decide, 0, 13107 / 2, ?_, by norm_num⟩
  rw [extract_ok_eq 255 255 0 0 254 (by decide)]
  norm_num [show ((0 &&& 127) <<< 8 ||| 0 : ℕ) = 0 from by decide,
            show (255 <<< 8 ||| 255 : ℕ) = 65535 from by decide]

/-- C3 counterexample: a run in which the GPIO calls succeed and the
deadline expires after 82 transitions — one short of 83 — reports the
single generic timeout error (`"timeout waiting for sensor response"`),
not `InsufficientTransitions` carrying the count 82 as the claim
states. -/
theorem C3_counterexample :
    (sensor0.readDHT22
        (ReadEnv.mk true true true (List.replicate 82 70000) 0)).1
      = .error .timeout ∧
    (sensor0.readDHT22
        (ReadEnv.mk true true true (List.replicate 82 70000) 0)).1
      ≠ .error (.insufficientData 82) := by
  constructor <;> decide

/-- C3 (amended; deadline error taxonomy): whenever the 200 ms deadline
expires before 83 transitions have been captured, the read reports the
one generic timeout error regardless of the observed transition count —
for 2 transitions and for 82 transitions alike — and it never reports
`InsufficientTransitions`: the `insufficient data` branch after the
`parseData` label is unreachable, because the sampling loop only jumps
there once 83 transitions have been captured. -/
theorem C3_timeout_uniform (d : DHT22) (env : ReadEnv)
    (hlow : env.outLowOk = true) (hhigh : env.outHighOk = true)
    (hin : env.inOk = true) (hshort : env.transitions.length < 83) :
    (d.readDHT22 env).1 = .error .timeout ∧
    ∀ n, (d.readDHT22 env).1 ≠ .error (.insufficientData n) := by
  have hs : sampleTransitions [] env.transitions = none :=
    sampleTransitions_none _ _ (by simpa)
  constructor
  · simp [DHT22.readDHT22, hlow, hhigh, hin, hs]
  · intro n
    simp [DHT22.readDHT22, hlow, hhigh, hin, hs]

/-- C3 witness: the amended statement applied to a 2-transition run
(the spec's "no response" case, which the claim gets right). -/
theorem C3_timeout_uniform_witness :
    (ReadEnv.mk true true true [80000, 80000] 0).transitions.length < 83 ∧
    (sensor0.readDHT22 (ReadEnv.mk true true true [80000, 80000] 0)).1
      = .error .timeout :=
  ⟨by decide,
   (C3_timeout_uniform sensor0 (ReadEnv.mk true true true [80000, 80000] 0)
      rfl rfl rfl (by decide)).1⟩

/-- C1 (round trip): the 5-byte frame for humidity 45.3 and temperature
23.7 (`c1frame = [1, 197, 0, 237, 179]`), encoded into 3 handshake
transitions plus one (low, high) pulse pair per bit with a 27 µs high
pulse per 0-bit and a 70 µs high pulse per 1-bit (`c1trace`), decodes
through the full sampling → bit assembly → checksum → extraction path
back to temperature 23.7 and humidity 45.3, within tolerance 0.01. -/
theorem C1_round_trip :
    ∃ t h : ℚ,
      (sensor0.readDHT22 (ReadEnv.mk true true true c1trace 0)).1
        = .ok (t, h) ∧
      |t - 237 / 10| ≤ 1 / 100 ∧ |h - 453 / 10| ≤ 1 / 100 := by
  have hsample : sampleTransitions [] c1trace = some c1trace := by decide
  have hlen : ¬ (c1trace.length < 83) := by decide
  have hframe : decodeFrame c1trace = [1, 197, 0, 237, 179] := by decide
  have hext : extract [1, 197, 0, 237, 179] = .ok (237 / 10, 453 / 10) := by
    rw [extract_ok_eq 1 197 0 237 179 (by decide)]
    norm_num [show ((0 &&& 127) <<< 8 ||| 237 : ℕ) = 237 from by decide,
              show (1 <<< 8 ||| 197 : ℕ) = 453 from by decide]
  refine ⟨237 / 10, 453 / 10, ?_, by norm_num, by norm_num⟩
  simp [DHT22.readDHT22, hsample, hlen, hframe, hext]

/-- C8 (no persistent state): every invocation of `Read`, whether it
returns a reading or an error, leaves the sensor instance's fields — the
pin name and the line-controller handle — exactly as they were. -/
theorem C8_no_persistent_state (d : DHT22) (env : ReadEnv) :
    ((d.Read env).2).Pin = d.Pin ∧ ((d.Read env).2).gpioPin = d.gpioPin := by
  have h2 : (d.Read env).2 = d := by
    unfold DHT22.Read
    cases hr : (d.readDHT22 env).1 with
    | error e => simp [hr, readDHT22_snd]
    | ok r =>
      obtain ⟨t, h⟩ := r
      simp [hr, readDHT22_snd]
  rw [h2]
  exact ⟨rfl, rfl⟩

/-- C9 (Close idempotence): `Close` has an empty body, so calling it any
number of times in a row returns no error and leaves the instance's
state unchanged. -/
theorem C9_close_idempotent (d : DHT22) (n : Nat) :
    DHT22.Close^[n] d = d :=
  Function.iterate_fixed rfl n
